import Mathlib

/-!
Verification of `testservices/identityservice/userpass.go` (goose): the
Keystone v2 user/password identity test service.

The Go code is shallowly embedded: structs become Lean structures, the
`users` map becomes an association list with Go map lookup/insert
semantics, HTTP handling becomes a pure function from the handler state
and an abstracted request to a response plus the (unchanged) state, and
`encoding/json` is modelled by an executable JSON value type with a
parser (`parseJson`), a Go-struct decoder per target type, and a
marshaller (`marshalJson`).
-/

set_option maxRecDepth 20000

namespace GooseIdentity

/-- JSON values, the model of what `encoding/json` parses and emits.
Numbers are integers only: every number in this service's payloads is an
integer, and fractional syntax simply fails to parse in this model. -/
inductive Json where
  | null : Json
  | bool : Bool → Json
  | num : Int → Json
  | str : String → Json
  | arr : List Json → Json
  | obj : List (String × Json) → Json
deriving Repr

/-- JSON insignificant whitespace: space, newline, tab or carriage
return. -/
def isWs (c : Char) : Bool :=
  c == ' ' || c == '\t' || c == '\n' || c == '\r'

def skipWs : List Char → List Char :=
  List.rec (motive := fun _ => List Char) []
    (fun c cs ih => if isWs c then ih else c :: cs)

/-- Resolution of a backslash escape inside a JSON string literal: the
quote, backslash and slash stand for themselves, the letters n, t, r, b
and f for their control characters, anything else is rejected. -/
def escChar (e : Char) : Option Char :=
  if e == 'n' then some '\n'
  else if e == 't' then some '\t'
  else if e == 'r' then some '\r'
  else if e == 'b' then some (Char.ofNat 8)
  else if e == 'f' then some (Char.ofNat 12)
  else if e == '"' || e == '\\' || e == '/' then some e
  else none

/-- Parses the remainder of a JSON string literal (after the opening
quote): `esc` records a pending backslash, `acc` holds the decoded
characters in reverse. Written with `List.rec` and the recursive result
in tail position so the kernel evaluates it in constant stack depth. -/
def parseStringAux : List Char → Bool → List Char → Option (List Char × List Char) :=
  List.rec (motive := fun _ => Bool → List Char → Option (List Char × List Char))
    (fun _ _ => none)
    (fun c cs ih esc acc =>
      if esc then
        match escChar c with
        | some ec => ih false (ec :: acc)
        | none => none
      else if c == '"' then some (acc.reverse, cs)
      else if c == '\\' then ih true acc
      else ih false (c :: acc))

def parseStringRest (cs : List Char) : Option (List Char × List Char) :=
  parseStringAux cs false []

def digitVal (c : Char) : Option Nat :=
  if '0' ≤ c && c ≤ '9' then some (c.toNat - '0'.toNat) else none

/-- Consumes a (possibly empty) run of digits, extending accumulator `acc`. -/
def parseDigitsAux : List Char → Nat → Nat × List Char :=
  List.rec (motive := fun _ => Nat → Nat × List Char)
    (fun acc => (acc, []))
    (fun c cs ih acc =>
      match digitVal c with
      | some d => ih (acc * 10 + d)
      | none => (acc, c :: cs))

/-- Grammar nonterminal the parsing machine is working on: a value, the
members of an object, or the items of an array. -/
inductive PMode where
  | val : PMode
  | mems : PMode
  | items : PMode

/-- Result of one nonterminal, tagged by which nonterminal produced it. -/
inductive PRes where
  | val : Json → PRes
  | mems : List (String × Json) → PRes
  | items : List Json → PRes

/-- One step of the recursive-descent parser: `ih` parses any
nonterminal using the remaining fuel. Parsing a value consumes at least
one character, and every fuel-consuming chain from `mems`/`items` back
to itself consumes at least one character per two fuel units, so
`2 * length + 2` fuel always suffices. -/
def parseStepF (ih : PMode → List Char → Option (PRes × List Char)) :
    PMode → List Char → Option (PRes × List Char) := fun mode cs =>
  match mode with
  | .val =>
    match skipWs cs with
    | [] => none
    | '"' :: cs1 =>
      match parseStringRest cs1 with
      | some (s, r) => some (.val (.str (String.mk s)), r)
      | none => none
    | 't' :: 'r' :: 'u' :: 'e' :: r => some (.val (.bool true), r)
    | 'f' :: 'a' :: 'l' :: 's' :: 'e' :: r => some (.val (.bool false), r)
    | 'n' :: 'u' :: 'l' :: 'l' :: r => some (.val .null, r)
    | '\x7b' :: cs1 =>
      match skipWs cs1 with
      | '\x7d' :: r => some (.val (.obj []), r)
      | cs2 =>
        match ih .mems cs2 with
        | some (.mems fs, r) => some (.val (.obj fs), r)
        | _ => none
    | '[' :: cs1 =>
      match skipWs cs1 with
      | ']' :: r => some (.val (.arr []), r)
      | cs2 =>
        match ih .items cs2 with
        | some (.items xs, r) => some (.val (.arr xs), r)
        | _ => none
    | '-' :: c :: cs1 =>
      match digitVal c with
      | some d =>
        match parseDigitsAux cs1 d with
        | (n, r) => some (.val (.num (-(Int.ofNat n))), r)
      | none => none
    | c :: cs1 =>
      match digitVal c with
      | some d =>
        match parseDigitsAux cs1 d with
        | (n, r) => some (.val (.num (Int.ofNat n)), r)
      | none => none
  | .mems =>
    match skipWs cs with
    | '"' :: cs1 =>
      match parseStringRest cs1 with
      | none => none
      | some (k, cs2) =>
        match skipWs cs2 with
        | ':' :: cs3 =>
          match ih .val cs3 with
          | some (.val v, cs4) =>
            match skipWs cs4 with
            | ',' :: cs5 =>
              match ih .mems cs5 with
              | some (.mems fs, r) => some (.mems ((String.mk k, v) :: fs), r)
              | _ => none
            | '\x7d' :: cs5 => some (.mems [(String.mk k, v)], cs5)
            | _ => none
          | _ => none
        | _ => none
    | _ => none
  | .items =>
    match ih .val cs with
    | some (.val v, cs1) =>
      match skipWs cs1 with
      | ',' :: cs2 =>
        match ih .items cs2 with
        | some (.items xs, r) => some (.items (v :: xs), r)
        | _ => none
      | ']' :: cs2 => some (.items [v], cs2)
      | _ => none
    | _ => none

/-- Fuel-bounded recursive-descent parser, written with a bare `Nat.rec`
so that kernel reduction unfolds one step at a time instead of building
a recursor tower of the fuel's height. -/
def parseCore (fuel : Nat) : PMode → List Char → Option (PRes × List Char) :=
  Nat.rec (motive := fun _ => PMode → List Char → Option (PRes × List Char))
    (fun _ _ => none)
    (fun _ ih => parseStepF ih)
    fuel

/-- Tail-recursive list length (plus `acc`), for the fuel computation. -/
def lenAcc : List Char → Nat → Nat :=
  List.rec (motive := fun _ => Nat → Nat)
    (fun acc => acc)
    (fun _ _ ih acc => ih (acc + 1))

/-- Full-input JSON parse: the model of JSON syntactic validity as
`encoding/json` checks it (one value, trailing whitespace allowed). -/
def parseJson (s : String) : Option Json :=
  match parseCore (2 * lenAcc s.data 1) .val s.data with
  | some (.val v, r) =>
    match skipWs r with
    | [] => some v
    | _ => none
  | _ => none

/-! ## Data model: the Go structs of userpass.go -/

structure ErrorResponse where
  Message : String
  Code : Int
  Title : String
deriving Repr, DecidableEq

structure ErrorWrapper where
  Error : ErrorResponse
deriving Repr, DecidableEq

/-- The anonymous `passwordCredentials` struct inside `UserPassRequest`. -/
structure PasswordCredentials where
  Username : String
  Password : String
deriving Repr, DecidableEq

/-- The anonymous `Auth` struct inside `UserPassRequest`. -/
structure Auth where
  PasswordCredentials : PasswordCredentials
  TenantName : String
deriving Repr, DecidableEq

structure UserPassRequest where
  Auth : Auth
deriving Repr, DecidableEq

structure Endpoint where
  AdminURL : String
  InternalURL : String
  PublicURL : String
  Region : String
deriving Repr, DecidableEq

structure Service where
  Name : String
  -- Go field `Type` (a keyword in Lean), json tag "type"
  Type_ : String
  Endpoints : List Endpoint
deriving Repr, DecidableEq

/-- The anonymous tenant struct inside `TokenResponse`. -/
structure TokenTenant where
  Id : String
  Name : String
deriving Repr, DecidableEq

structure TokenResponse where
  Expires : String
  Id : String
  Tenant : TokenTenant
deriving Repr, DecidableEq

structure RoleResponse where
  Id : String
  Name : String
  TenantId : String
deriving Repr, DecidableEq

structure UserResponse where
  Id : String
  Name : String
  Roles : List RoleResponse
deriving Repr, DecidableEq

/-- The anonymous `Access` struct inside `AccessResponse`. -/
structure Access where
  ServiceCatalog : List Service
  Token : TokenResponse
  User : UserResponse
deriving Repr, DecidableEq

structure AccessResponse where
  Access : Access
deriving Repr, DecidableEq

/-- `UserInfo` as used by the `users` map (fields `secret`, `token`;
defined in the identityservice package alongside userpass.go). -/
structure UserInfo where
  secret : String
  token : String
deriving Repr, DecidableEq

/-! ## String constants, transcribed byte for byte from userpass.go -/

def exampleResponse : String :=
  "\x7b\n" ++
  "    \"access\": \x7b\n" ++
  "        \"serviceCatalog\": [\n" ++
  "            \x7b\n" ++
  "                \"endpoints\": [\n" ++
  "                    \x7b\n" ++
  "                        \"adminURL\": \"https://nova-api.trystack.org:9774/v1.1/1\", \n" ++
  "                        \"internalURL\": \"https://nova-api.trystack.org:9774/v1.1/1\", \n" ++
  "                        \"publicURL\": \"https://nova-api.trystack.org:9774/v1.1/1\", \n" ++
  "                        \"region\": \"RegionOne\"\n" ++
  "                    \x7d\n" ++
  "                ], \n" ++
  "                \"name\": \"nova\", \n" ++
  "                \"type\": \"compute\"\n" ++
  "            \x7d, \n" ++
  "            \x7b\n" ++
  "                \"endpoints\": [\n" ++
  "                    \x7b\n" ++
  "                        \"adminURL\": \"https://GLANCE_API_IS_NOT_DISCLOSED/v1.1/1\", \n" ++
  "                        \"internalURL\": \"https://GLANCE_API_IS_NOT_DISCLOSED/v1.1/1\", \n" ++
  "                        \"publicURL\": \"https://GLANCE_API_IS_NOT_DISCLOSED/v1.1/1\", \n" ++
  "                        \"region\": \"RegionOne\"\n" ++
  "                    \x7d\n" ++
  "                ], \n" ++
  "                \"name\": \"glance\", \n" ++
  "                \"type\": \"image\"\n" ++
  "            \x7d, \n" ++
  "            \x7b\n" ++
  "                \"endpoints\": [\n" ++
  "                    \x7b\n" ++
  "                        \"adminURL\": \"https://nova-api.trystack.org:5443/v2.0\", \n" ++
  "                        \"internalURL\": \"https://keystone.trystack.org:5000/v2.0\", \n" ++
  "                        \"publicURL\": \"https://keystone.trystack.org:5000/v2.0\", \n" ++
  "                        \"region\": \"RegionOne\"\n" ++
  "                    \x7d\n" ++
  "                ], \n" ++
  "                \"name\": \"keystone\", \n" ++
  "                \"type\": \"identity\"\n" ++
  "            \x7d\n" ++
  "        ], \n" ++
  "        \"token\": \x7b\n" ++
  "            \"expires\": \"2012-02-15T19:32:21\", \n" ++
  "            \"id\": \"5df9d45d-d198-4222-9b4c-7a280aa35666\", \n" ++
  "            \"tenant\": \x7b\n" ++
  "                \"id\": \"1\", \n" ++
  "                \"name\": \"admin\"\n" ++
  "            \x7d\n" ++
  "        \x7d, \n" ++
  "        \"user\": \x7b\n" ++
  "            \"id\": \"14\", \n" ++
  "            \"name\": \"annegentle\", \n" ++
  "            \"roles\": [\n" ++
  "                \x7b\n" ++
  "                    \"id\": \"2\", \n" ++
  "                    \"name\": \"Member\", \n" ++
  "                    \"tenantId\": \"1\"\n" ++
  "                \x7d\n" ++
  "            ]\n" ++
  "        \x7d\n" ++
  "    \x7d\n" ++
  "\x7d"
def internalError : String :=
  "\x7b\n" ++
  "    \"error\": \x7b\n" ++
  "        \"message\": \"Internal failure\",\n" ++
  "\t\"code\": 500,\n" ++
  "\t\"title\": Internal Server Error\"\n" ++
  "    \x7d\n" ++
  "\x7d"
def notJSON : String :=
  "Expecting to find application/json in Content-Type header." ++
  " The server could not comply with the request since it is either malformed" ++
  " or otherwise incorrect. The client is assumed to be in error."

def notAuthorized : String := "The request you have made requires authentication."

def invalidUser : String := "Invalid user / password"

/-- Model of `net/http.StatusText` at the status codes this service uses
(it returns the empty string for unknown codes). -/
def statusText : Nat → String
  | 200 => "OK"
  | 400 => "Bad Request"
  | 401 => "Unauthorized"
  | 500 => "Internal Server Error"
  | _ => ""

/-! ## Model of `encoding/json` decoding into the Go target structs

Go's `json.Unmarshal` into a struct: a JSON key is matched to a struct
field by its json tag (case-insensitively; with duplicate keys the last
occurrence wins, since keys are processed in order and later assignments
overwrite earlier ones); unmatched struct fields keep their zero value;
JSON `null` leaves the target untouched (zero here); a JSON value whose
kind does not fit the target type is an error, which the callers in
userpass.go treat as a failed decode. -/

def keyEq (a b : String) : Bool :=
  a.data.map Char.toLower == b.data.map Char.toLower

/-- The JSON value a struct field with (effective) key `key` receives:
the last member whose key matches case-insensitively. -/
def lookupField : List (String × Json) → String → Option Json
  | [], _ => none
  | (k, v) :: rest, key =>
    match lookupField rest key with
    | some v2 => some v2
    | none => if keyEq k key then some v else none

/-- Decoding into a `string` field: absent or `null` leaves the zero
value, a string decodes, anything else is an unmarshal error. -/
def goString : Option Json → Option String
  | none => some ""
  | some .null => some ""
  | some (.str s) => some s
  | some _ => none

def goPasswordCredentials : Option Json → Option PasswordCredentials
  | none => some ⟨"", ""⟩
  | some .null => some ⟨"", ""⟩
  | some (.obj fs) => do
    let u ← goString (lookupField fs "username")
    let p ← goString (lookupField fs "password")
    pure ⟨u, p⟩
  | some _ => none

def goAuth : Option Json → Option Auth
  | none => some ⟨⟨"", ""⟩, ""⟩
  | some .null => some ⟨⟨"", ""⟩, ""⟩
  | some (.obj fs) => do
    let pc ← goPasswordCredentials (lookupField fs "passwordCredentials")
    let tn ← goString (lookupField fs "tenantName")
    pure ⟨pc, tn⟩
  | some _ => none

/-- `json.Unmarshal(content, &req)` for `req : UserPassRequest`: parse,
then decode; a non-object, non-null top level cannot fill a struct. -/
def unmarshalUserPassRequest (content : String) : Option UserPassRequest :=
  match parseJson content with
  | none => none
  | some .null => some ⟨⟨⟨"", ""⟩, ""⟩⟩
  | some (.obj fs) => do
    let a ← goAuth (lookupField fs "auth")
    pure ⟨a⟩
  | some _ => none

def goEndpoint : Json → Option Endpoint
  | .null => some ⟨"", "", "", ""⟩
  | .obj fs => do
    let a ← goString (lookupField fs "adminURL")
    let i ← goString (lookupField fs "internalURL")
    let p ← goString (lookupField fs "publicURL")
    let r ← goString (lookupField fs "region")
    pure ⟨a, i, p, r⟩
  | _ => none

def goEndpointList : Option Json → Option (List Endpoint)
  | none => some []
  | some .null => some []
  | some (.arr xs) => xs.mapM goEndpoint
  | some _ => none

/-- `Endpoints` has no json tag, so its effective key is the field name
`Endpoints`; Go's case-insensitive match makes it receive `endpoints`. -/
def goService : Json → Option Service
  | .null => some ⟨"", "", []⟩
  | .obj fs => do
    let n ← goString (lookupField fs "name")
    let t ← goString (lookupField fs "type")
    let es ← goEndpointList (lookupField fs "Endpoints")
    pure ⟨n, t, es⟩
  | _ => none

def goServiceList : Option Json → Option (List Service)
  | none => some []
  | some .null => some []
  | some (.arr xs) => xs.mapM goService
  | some _ => none

def goTokenTenant : Option Json → Option TokenTenant
  | none => some ⟨"", ""⟩
  | some .null => some ⟨"", ""⟩
  | some (.obj fs) => do
    let i ← goString (lookupField fs "id")
    let n ← goString (lookupField fs "name")
    pure ⟨i, n⟩
  | some _ => none

def goTokenResponse : Option Json → Option TokenResponse
  | none => some ⟨"", "", ⟨"", ""⟩⟩
  | some .null => some ⟨"", "", ⟨"", ""⟩⟩
  | some (.obj fs) => do
    let e ← goString (lookupField fs "expires")
    let i ← goString (lookupField fs "id")
    let t ← goTokenTenant (lookupField fs "tenant")
    pure ⟨e, i, t⟩
  | some _ => none

def goRoleResponse : Json → Option RoleResponse
  | .null => some ⟨"", "", ""⟩
  | .obj fs => do
    let i ← goString (lookupField fs "id")
    let n ← goString (lookupField fs "name")
    let t ← goString (lookupField fs "tenantId")
    pure ⟨i, n, t⟩
  | _ => none

def goUserResponse : Option Json → Option UserResponse
  | none => some ⟨"", "", []⟩
  | some .null => some ⟨"", "", []⟩
  | some (.obj fs) => do
    let i ← goString (lookupField fs "id")
    let n ← goString (lookupField fs "name")
    let rs ← (match lookupField fs "roles" with
      | none => some []
      | some .null => some []
      | some (.arr xs) => xs.mapM goRoleResponse
      | some _ => none)
    pure ⟨i, n, rs⟩
  | some _ => none

def goAccess : Option Json → Option Access
  | none => some ⟨[], ⟨"", "", ⟨"", ""⟩⟩, ⟨"", "", []⟩⟩
  | some .null => some ⟨[], ⟨"", "", ⟨"", ""⟩⟩, ⟨"", "", []⟩⟩
  | some (.obj fs) => do
    let sc ← goServiceList (lookupField fs "serviceCatalog")
    let t ← goTokenResponse (lookupField fs "token")
    let u ← goUserResponse (lookupField fs "user")
    pure ⟨sc, t, u⟩
  | some _ => none

/-- `json.Unmarshal([]byte(exampleResponse), &res)` for
`res : AccessResponse`. -/
def decodeAccessResponse (j : Json) : Option AccessResponse :=
  match j with
  | .null => some ⟨⟨[], ⟨"", "", ⟨"", ""⟩⟩, ⟨"", "", []⟩⟩⟩
  | .obj fs => do
    let a ← goAccess (lookupField fs "access")
    pure ⟨a⟩
  | _ => none

/-! ## Model of `encoding/json` marshalling -/

/-- JSON string-literal escaping. (Go additionally escapes `<`, `>`, `&`
and other control characters; none occur in this service's payloads.) -/
def escapeChar (c : Char) : String :=
  if c == '"' then "\\\"" else
  if c == '\\' then "\\\\" else
  if c == '\n' then "\\n" else
  if c == '\t' then "\\t" else
  if c == '\r' then "\\r" else
  String.mk [c]

def escapeString (s : String) : String :=
  String.join (s.data.map escapeChar)

mutual

/-- Serialization of a JSON value, the model of `json.Marshal` output. -/
def marshalJson : Json → String
  | .null => "null"
  | .bool true => "true"
  | .bool false => "false"
  | .num n => toString n
  | .str s => "\"" ++ escapeString s ++ "\""
  | .arr xs => "[" ++ marshalArr xs ++ "]"
  | .obj fs => "\x7b" ++ marshalObj fs ++ "\x7d"

def marshalArr : List Json → String
  | [] => ""
  | [x] => marshalJson x
  | x :: y :: xs => marshalJson x ++ "," ++ marshalArr (y :: xs)

def marshalObj : List (String × Json) → String
  | [] => ""
  | [(k, v)] => "\"" ++ escapeString k ++ "\":" ++ marshalJson v
  | (k, v) :: f :: fs =>
    "\"" ++ escapeString k ++ "\":" ++ marshalJson v ++ "," ++ marshalObj (f :: fs)

end

/-! ## Encoding the Go structs to JSON values (struct field order, json
tag keys; `Endpoints` has no tag so its key is the field name). -/

def encodeEndpoint (e : Endpoint) : Json :=
  .obj [("adminURL", .str e.AdminURL), ("internalURL", .str e.InternalURL),
        ("publicURL", .str e.PublicURL), ("region", .str e.Region)]

def encodeService (s : Service) : Json :=
  .obj [("name", .str s.Name), ("type", .str s.Type_),
        ("Endpoints", .arr (s.Endpoints.map encodeEndpoint))]

def encodeTokenResponse (t : TokenResponse) : Json :=
  .obj [("expires", .str t.Expires), ("id", .str t.Id),
        ("tenant", .obj [("id", .str t.Tenant.Id), ("name", .str t.Tenant.Name)])]

def encodeRoleResponse (r : RoleResponse) : Json :=
  .obj [("id", .str r.Id), ("name", .str r.Name), ("tenantId", .str r.TenantId)]

def encodeUserResponse (u : UserResponse) : Json :=
  .obj [("id", .str u.Id), ("name", .str u.Name),
        ("roles", .arr (u.Roles.map encodeRoleResponse))]

def encodeAccessResponse (a : AccessResponse) : Json :=
  .obj [("access", .obj
    [("serviceCatalog", .arr (a.Access.ServiceCatalog.map encodeService)),
     ("token", encodeTokenResponse a.Access.Token),
     ("user", encodeUserResponse a.Access.User)])]

def encodeErrorWrapper (e : ErrorWrapper) : Json :=
  .obj [("error", .obj
    [("message", .str e.Error.Message), ("code", .num e.Error.Code),
     ("title", .str e.Error.Title)])]

/-- `json.Marshal` on `ErrorWrapper` (plain string/int fields) cannot
fail, so the realized marshaller always succeeds; `ReturnFailure` below
is parameterized over the marshaller so that its double-failure branch
remains analyzable. -/
def marshalErrorWrapper (e : ErrorWrapper) : Option String :=
  some (marshalJson (encodeErrorWrapper e))

/-! ## The handler state and HTTP layer -/

/-- The `users` map of the `UserPass` struct, as an association list with
Go map semantics: `mapLookup` is `u.users[k]` with its `ok` flag,
`mapInsert` is `u.users[k] = v` (a later insert shadows earlier ones). -/
def Users := List (String × UserInfo)

def mapLookup : List (String × UserInfo) → String → Option UserInfo
  | [], _ => none
  | (k, v) :: rest, key => if k == key then some v else mapLookup rest key

def mapInsert (m : List (String × UserInfo)) (k : String) (v : UserInfo) :
    List (String × UserInfo) :=
  (k, v) :: m

/-- `NewUserPass()`: an empty users map. -/
def NewUserPass : List (String × UserInfo) := []

/-- `AddUser(user, secret)`: stores `UserInfo{secret, token}` and returns
the token. `randomHexToken()`\'s output is nondeterministic, so the model
takes the generated token as an explicit argument. -/
def AddUser (users : List (String × UserInfo)) (user secret token : String) :
    String × List (String × UserInfo) :=
  (token, mapInsert users user ⟨secret, token⟩)

/-- The request data `ServeHTTP` consumes: the `Content-Type` header
(`""` when absent) and the result of `ioutil.ReadAll(r.Body)`, with
`none` standing for a body-read failure. -/
structure Request where
  contentType : String
  body : Option String
deriving Repr, DecidableEq

/-- The observable response: status code written by `WriteHeader`, the
response headers, and the bytes written to the body (`""` when nothing
is written). -/
structure Response where
  status : Nat
  headers : List (String × String)
  body : String
deriving Repr, DecidableEq

/-- `w.Header().Set(k, v)`: replaces the value of `k`, or appends it. -/
def setHeader (hs : List (String × String)) (k v : String) :
    List (String × String) :=
  match hs with
  | [] => [(k, v)]
  | (k0, v0) :: rest =>
    if k0 == k then (k, v) :: rest else (k0, v0) :: setHeader rest k v

def getHeader (hs : List (String × String)) (k : String) : Option String :=
  match hs with
  | [] => none
  | (k0, v0) :: rest => if k0 == k then some v0 else getHeader rest k

/-- `ReturnFailure(w, status, message)`, parameterized by the marshaller
so that the `json.Marshal(e)` failure branch can be stated: on failure it
writes 500 and the static `internalError` bytes, otherwise the requested
status and the encoded envelope. `hs` is the headers already set on `w`. -/
def ReturnFailure (marshal : ErrorWrapper → Option String)
    (hs : List (String × String)) (status : Nat) (message : String) : Response :=
  let e : ErrorWrapper := ⟨⟨message, Int.ofNat status, statusText status⟩⟩
  match marshal e with
  | none =>
    ⟨500, setHeader hs "Content-Length" (toString internalError.length), internalError⟩
  | some content =>
    ⟨status, setHeader hs "Content-Length" (toString content.length), content⟩

/-- The template document decoded from `exampleResponse`, as `ServeHTTP`
recomputes it on every successful login. -/
def exampleResponseDecoded : Option AccessResponse :=
  (parseJson exampleResponse).bind decodeAccessResponse

/-- `res.Access.Token.Id = userInfo.token`. -/
def setTokenId (res : AccessResponse) (token : String) : AccessResponse :=
  { res with Access := { res.Access with Token := { res.Access.Token with Id := token } } }

/-- Stand-in for `err.Error()` in the (unreachable) branch where decoding
the fixed `exampleResponse` fails. -/
def decodeErrMessage : String := ""

/-- `ServeHTTP`, line by line. The method only reads `u.users`, so the
state is threaded through and returned unchanged on every path; the final
`json.Marshal(res)` cannot fail on these plain struct/slice/string fields
and is modelled total. -/
def ServeHTTP (users : List (String × UserInfo)) (r : Request) :
    Response × List (String × UserInfo) :=
  let hs := setHeader [] "Content-Type" "application/json"
  if r.contentType != "application/json" then
    (ReturnFailure marshalErrorWrapper hs 400 notJSON, users)
  else
    match r.body with
    | none => (⟨400, hs, ""⟩, users)
    | some content =>
      match unmarshalUserPassRequest content with
      | none => (ReturnFailure marshalErrorWrapper hs 400 notJSON, users)
      | some req =>
        match mapLookup users req.Auth.PasswordCredentials.Username with
        | none => (ReturnFailure marshalErrorWrapper hs 401 notAuthorized, users)
        | some userInfo =>
          if userInfo.secret != req.Auth.PasswordCredentials.Password then
            (ReturnFailure marshalErrorWrapper hs 401 invalidUser, users)
          else
            match exampleResponseDecoded with
            | none =>
              (ReturnFailure marshalErrorWrapper hs 500 decodeErrMessage, users)
            | some res =>
              let res := setTokenId res userInfo.token
              (⟨200, hs, marshalJson (encodeAccessResponse res)⟩, users)

/-- The error body the service writes when `json.Marshal` of the
envelope succeeds: the encoded `ErrorWrapper` for this status/message. -/
def errorBody (status : Nat) (message : String) : String :=
  marshalJson (encodeErrorWrapper ⟨⟨message, Int.ofNat status, statusText status⟩⟩)

/-! ## Theorems -/

/-- With the real (never-failing) marshaller, `ReturnFailure` writes the
requested status and the encoded envelope. -/
theorem returnFailure_real (hs : List (String × String)) (status : Nat) (message : String) :
    ReturnFailure marshalErrorWrapper hs status message =
      ⟨status, setHeader hs "Content-Length" (toString (errorBody status message).length),
        errorBody status message⟩ := rfl

/-- Decoding the fixed `exampleResponse` template succeeds. -/
theorem exampleDecoded_isSome : exampleResponseDecoded.isSome = true := by rfl

/-- C1: the claim asserts the pre-baked static fallback payload is
syntactically valid JSON; in fact the `title` value in `internalError`
is missing its opening quote (`"title": Internal Server Error"`), so the
payload does not parse as JSON. -/
theorem internalError_not_valid_json : parseJson internalError = none := by rfl

/-- C2 (counterexample): a request with Content-Type application/json
whose body is the valid JSON object `\x7b\x7d` — which does not match the
expected login-request shape — is answered with 401, not 400: Go's
`json.Unmarshal` accepts missing fields, leaving zero values, so the
handler proceeds to the (failing) credential lookup. -/
theorem serveHTTP_schema_mismatch_401_not_400 :
    (ServeHTTP NewUserPass ⟨"application/json", some "\x7b\x7d"⟩).1.status = 401 ∧
    (ServeHTTP NewUserPass ⟨"application/json", some "\x7b\x7d"⟩).1.status ≠ 400 := by
  exact ⟨rfl, by decide⟩

/-- C2 (amended): for every request whose Content-Type header is
application/json but whose body `json.Unmarshal` fails to decode into
the login-request struct (not JSON, or JSON whose values are
type-incompatible with the struct), the handler responds 400 with the
content-type error message body. -/
theorem serveHTTP_undecodable_body_400 (users : List (String × UserInfo))
    (r : Request) (content : String)
    (hct : r.contentType = "application/json") (hb : r.body = some content)
    (hu : unmarshalUserPassRequest content = none) :
    (ServeHTTP users r).1.status = 400 ∧
    (ServeHTTP users r).1.body = errorBody 400 notJSON := by
  simp [ServeHTTP, hct, hb, hu, returnFailure_real]

theorem serveHTTP_undecodable_body_400_witness :
    ("application/json" : String) = "application/json" ∧
    (some "not json" : Option String) = some "not json" ∧
    unmarshalUserPassRequest "not json" = none ∧
    ((ServeHTTP [] ⟨"application/json", some "not json"⟩).1.status = 400 ∧
      (ServeHTTP [] ⟨"application/json", some "not json"⟩).1.body = errorBody 400 notJSON) :=
  ⟨rfl, rfl, rfl,
    serveHTTP_undecodable_body_400 [] ⟨"application/json", some "not json"⟩ "not json"
      rfl rfl rfl⟩

/-- C3: after `AddUser(user, secret)` returned a token, a well-formed
login carrying that username and secret is answered 200 with a body that
is the encoding of a document whose `access.token.id` is that token. -/
theorem addUser_login_returns_token (users : List (String × UserInfo))
    (user secret token : String) (r : Request) (content : String) (req : UserPassRequest)
    (hct : r.contentType = "application/json") (hb : r.body = some content)
    (hu : unmarshalUserPassRequest content = some req)
    (hun : req.Auth.PasswordCredentials.Username = user)
    (hpw : req.Auth.PasswordCredentials.Password = secret) :
    (ServeHTTP (AddUser users user secret token).2 r).1.status = 200 ∧
    ∃ doc : AccessResponse,
      (ServeHTTP (AddUser users user secret token).2 r).1.body =
        marshalJson (encodeAccessResponse doc) ∧
      doc.Access.Token.Id = (AddUser users user secret token).1 := by
  have hl : mapLookup (AddUser users user secret token).2
      req.Auth.PasswordCredentials.Username = some ⟨secret, token⟩ := by
    simp [AddUser, mapInsert, mapLookup, hun]
  cases htmpl : exampleResponseDecoded with
  | none => exact absurd (htmpl ▸ exampleDecoded_isSome) (by simp)
  | some tmpl =>
    refine ⟨?_, setTokenId tmpl token, ?_, by simp [setTokenId, AddUser]⟩ <;>
      simp [ServeHTTP, hct, hb, hu, hl, hpw, htmpl]

theorem addUser_login_returns_token_witness :
    unmarshalUserPassRequest
        "\x7b\"auth\":\x7b\"passwordCredentials\":\x7b\"username\":\"joe\",\"password\":\"pw\"\x7d\x7d\x7d" =
      some ⟨⟨⟨"joe", "pw"⟩, ""⟩⟩ ∧
    ((ServeHTTP (AddUser [] "joe" "pw" "tok").2
        ⟨"application/json",
          some "\x7b\"auth\":\x7b\"passwordCredentials\":\x7b\"username\":\"joe\",\"password\":\"pw\"\x7d\x7d\x7d"⟩).1.status = 200 ∧
      ∃ doc : AccessResponse,
        (ServeHTTP (AddUser [] "joe" "pw" "tok").2
          ⟨"application/json",
            some "\x7b\"auth\":\x7b\"passwordCredentials\":\x7b\"username\":\"joe\",\"password\":\"pw\"\x7d\x7d\x7d"⟩).1.body =
          marshalJson (encodeAccessResponse doc) ∧
        doc.Access.Token.Id = (AddUser [] "joe" "pw" "tok").1) :=
  ⟨rfl,
    addUser_login_returns_token [] "joe" "pw" "tok"
      ⟨"application/json",
        some "\x7b\"auth\":\x7b\"passwordCredentials\":\x7b\"username\":\"joe\",\"password\":\"pw\"\x7d\x7d\x7d"⟩
      "\x7b\"auth\":\x7b\"passwordCredentials\":\x7b\"username\":\"joe\",\"password\":\"pw\"\x7d\x7d\x7d"
      ⟨⟨⟨"joe", "pw"⟩, ""⟩⟩ rfl rfl rfl rfl rfl⟩

/-- C4: a user record's token is written only by `AddUser` (once per
registration), `ServeHTTP` returns the users map unchanged on every
path, and therefore two consecutive logins with the same request give
identical responses. -/
theorem serveHTTP_no_mutation_token_stable :
    (∀ (users : List (String × UserInfo)) (r : Request), (ServeHTTP users r).2 = users) ∧
    (∀ (users : List (String × UserInfo)) (r : Request),
      ServeHTTP (ServeHTTP users r).2 r = ServeHTTP users r) ∧
    (∀ (users : List (String × UserInfo)) (user secret token : String),
      mapLookup (AddUser users user secret token).2 user = some ⟨secret, token⟩) := by
  have hsnd : ∀ (users : List (String × UserInfo)) (r : Request),
      (ServeHTTP users r).2 = users := by
    intro users r
    unfold ServeHTTP
    split
    · rfl
    · split
      · rfl
      · split
        · rfl
        · split
          · rfl
          · split
            · rfl
            · split <;> rfl
  refine ⟨hsnd, fun users r => by rw [hsnd], fun users user secret token => ?_⟩
  simp [AddUser, mapInsert, mapLookup]

/-- C5: a well-formed login whose username is not registered is answered
401 with the `notAuthorized` message in the error envelope. -/
theorem serveHTTP_unknown_user_401 (users : List (String × UserInfo))
    (r : Request) (content : String) (req : UserPassRequest)
    (hct : r.contentType = "application/json") (hb : r.body = some content)
    (hu : unmarshalUserPassRequest content = some req)
    (hl : mapLookup users req.Auth.PasswordCredentials.Username = none) :
    (ServeHTTP users r).1.status = 401 ∧
    (ServeHTTP users r).1.body = errorBody 401 notAuthorized := by
  simp [ServeHTTP, hct, hb, hu, hl, returnFailure_real]

theorem serveHTTP_unknown_user_401_witness :
    unmarshalUserPassRequest "\x7b\x7d" = some ⟨⟨⟨"", ""⟩, ""⟩⟩ ∧
    mapLookup [] "" = none ∧
    ((ServeHTTP [] ⟨"application/json", some "\x7b\x7d"⟩).1.status = 401 ∧
      (ServeHTTP [] ⟨"application/json", some "\x7b\x7d"⟩).1.body =
        errorBody 401 notAuthorized) :=
  ⟨rfl, rfl,
    serveHTTP_unknown_user_401 [] ⟨"application/json", some "\x7b\x7d"⟩ "\x7b\x7d"
      ⟨⟨⟨"", ""⟩, ""⟩⟩ rfl rfl rfl rfl⟩

/-- C6: a well-formed login for a registered user with the wrong
password is answered 401 with the `invalidUser` message. -/
theorem serveHTTP_wrong_password_401 (users : List (String × UserInfo))
    (r : Request) (content : String) (req : UserPassRequest) (userInfo : UserInfo)
    (hct : r.contentType = "application/json") (hb : r.body = some content)
    (hu : unmarshalUserPassRequest content = some req)
    (hl : mapLookup users req.Auth.PasswordCredentials.Username = some userInfo)
    (hpw : userInfo.secret ≠ req.Auth.PasswordCredentials.Password) :
    (ServeHTTP users r).1.status = 401 ∧
    (ServeHTTP users r).1.body = errorBody 401 invalidUser := by
  have hbne : (userInfo.secret != req.Auth.PasswordCredentials.Password) = true :=
    bne_iff_ne.mpr hpw
  simp [ServeHTTP, hct, hb, hu, hl, hbne, returnFailure_real]

theorem serveHTTP_wrong_password_401_witness :
    unmarshalUserPassRequest
        "\x7b\"auth\":\x7b\"passwordCredentials\":\x7b\"username\":\"joe\",\"password\":\"bad\"\x7d\x7d\x7d" =
      some ⟨⟨⟨"joe", "bad"⟩, ""⟩⟩ ∧
    mapLookup [("joe", ⟨"pw", "tok"⟩)] "joe" = some ⟨"pw", "tok"⟩ ∧
    ("pw" : String) ≠ "bad" ∧
    ((ServeHTTP [("joe", ⟨"pw", "tok"⟩)]
        ⟨"application/json",
          some "\x7b\"auth\":\x7b\"passwordCredentials\":\x7b\"username\":\"joe\",\"password\":\"bad\"\x7d\x7d\x7d"⟩).1.status = 401 ∧
      (ServeHTTP [("joe", ⟨"pw", "tok"⟩)]
        ⟨"application/json",
          some "\x7b\"auth\":\x7b\"passwordCredentials\":\x7b\"username\":\"joe\",\"password\":\"bad\"\x7d\x7d\x7d"⟩).1.body =
        errorBody 401 invalidUser) :=
  ⟨rfl, rfl, by decide,
    serveHTTP_wrong_password_401 [("joe", ⟨"pw", "tok"⟩)]
      ⟨"application/json",
        some "\x7b\"auth\":\x7b\"passwordCredentials\":\x7b\"username\":\"joe\",\"password\":\"bad\"\x7d\x7d\x7d"⟩
      "\x7b\"auth\":\x7b\"passwordCredentials\":\x7b\"username\":\"joe\",\"password\":\"bad\"\x7d\x7d\x7d"
      ⟨⟨⟨"joe", "bad"⟩, ""⟩⟩ ⟨"pw", "tok"⟩ rfl rfl rfl rfl (by decide)⟩

/-- C7: every successful login's 200 response is built from the decoded
`exampleResponse` template with only `access.token.id` overwritten by
the session's token; serviceCatalog, user, tenant and expiry are exactly
the template's. -/
theorem login_response_is_template_with_token (users : List (String × UserInfo))
    (r : Request) (content : String) (req : UserPassRequest) (userInfo : UserInfo)
    (hct : r.contentType = "application/json") (hb : r.body = some content)
    (hu : unmarshalUserPassRequest content = some req)
    (hl : mapLookup users req.Auth.PasswordCredentials.Username = some userInfo)
    (hpw : userInfo.secret = req.Auth.PasswordCredentials.Password) :
    ∃ t : AccessResponse, exampleResponseDecoded = some t ∧
      (ServeHTTP users r).1 =
        ⟨200, setHeader [] "Content-Type" "application/json",
          marshalJson (encodeAccessResponse (setTokenId t userInfo.token))⟩ ∧
      (setTokenId t userInfo.token).Access.Token.Id = userInfo.token ∧
      (setTokenId t userInfo.token).Access.ServiceCatalog = t.Access.ServiceCatalog ∧
      (setTokenId t userInfo.token).Access.User = t.Access.User ∧
      (setTokenId t userInfo.token).Access.Token.Expires = t.Access.Token.Expires ∧
      (setTokenId t userInfo.token).Access.Token.Tenant = t.Access.Token.Tenant := by
  cases htmpl : exampleResponseDecoded with
  | none => exact absurd (htmpl ▸ exampleDecoded_isSome) (by simp)
  | some tmpl =>
    refine ⟨tmpl, rfl, ?_, by simp [setTokenId], by simp [setTokenId],
      by simp [setTokenId], by simp [setTokenId], by simp [setTokenId]⟩
    simp [ServeHTTP, hct, hb, hu, hl, hpw, htmpl]

theorem login_response_is_template_with_token_witness :
    unmarshalUserPassRequest
        "\x7b\"auth\":\x7b\"passwordCredentials\":\x7b\"username\":\"joe\",\"password\":\"pw\"\x7d\x7d\x7d" =
      some ⟨⟨⟨"joe", "pw"⟩, ""⟩⟩ ∧
    mapLookup [("joe", ⟨"pw", "tok"⟩)] "joe" = some ⟨"pw", "tok"⟩ ∧
    ∃ t : AccessResponse, exampleResponseDecoded = some t ∧
      (ServeHTTP [("joe", ⟨"pw", "tok"⟩)]
        ⟨"application/json",
          some "\x7b\"auth\":\x7b\"passwordCredentials\":\x7b\"username\":\"joe\",\"password\":\"pw\"\x7d\x7d\x7d"⟩).1 =
        ⟨200, setHeader [] "Content-Type" "application/json",
          marshalJson (encodeAccessResponse (setTokenId t "tok"))⟩ ∧
      (setTokenId t "tok").Access.Token.Id = "tok" ∧
      (setTokenId t "tok").Access.ServiceCatalog = t.Access.ServiceCatalog ∧
      (setTokenId t "tok").Access.User = t.Access.User ∧
      (setTokenId t "tok").Access.Token.Expires = t.Access.Token.Expires ∧
      (setTokenId t "tok").Access.Token.Tenant = t.Access.Token.Tenant :=
  ⟨rfl, rfl,
    login_response_is_template_with_token [("joe", ⟨"pw", "tok"⟩)]
      ⟨"application/json",
        some "\x7b\"auth\":\x7b\"passwordCredentials\":\x7b\"username\":\"joe\",\"password\":\"pw\"\x7d\x7d\x7d"⟩
      "\x7b\"auth\":\x7b\"passwordCredentials\":\x7b\"username\":\"joe\",\"password\":\"pw\"\x7d\x7d\x7d"
      ⟨⟨⟨"joe", "pw"⟩, ""⟩⟩ ⟨"pw", "tok"⟩ rfl rfl rfl rfl rfl⟩

/-- C9: whenever marshalling the error envelope fails, `ReturnFailure`
writes status 500 and the static fallback bytes regardless of the
requested status; the caller's status is used only when marshalling
succeeds. -/
theorem returnFailure_marshal_failure_500 (marshal : ErrorWrapper → Option String)
    (hs : List (String × String)) (status : Nat) (message : String) :
    (marshal ⟨⟨message, Int.ofNat status, statusText status⟩⟩ = none →
      ReturnFailure marshal hs status message =
        ⟨500, setHeader hs "Content-Length" (toString internalError.length),
          internalError⟩) ∧
    (∀ content, marshal ⟨⟨message, Int.ofNat status, statusText status⟩⟩ = some content →
      (ReturnFailure marshal hs status message).status = status) := by
  constructor
  · intro h
    simp only [ReturnFailure]
    rw [h]
  · intro content h
    simp only [ReturnFailure]
    rw [h]

theorem returnFailure_marshal_failure_500_witness :
    ((fun _ : ErrorWrapper => (none : Option String)) ⟨⟨"boom", Int.ofNat 400, statusText 400⟩⟩ = none ∧
      ReturnFailure (fun _ => none) [] 400 "boom" =
        ⟨500, setHeader [] "Content-Length" (toString internalError.length), internalError⟩) ∧
    ((fun _ : ErrorWrapper => some "x") ⟨⟨"boom", Int.ofNat 400, statusText 400⟩⟩ = some "x" ∧
      (ReturnFailure (fun _ => some "x") [] 400 "boom").status = 400) :=
  ⟨⟨rfl, (returnFailure_marshal_failure_500 (fun _ => none) [] 400 "boom").1 rfl⟩,
    ⟨rfl, (returnFailure_marshal_failure_500 (fun _ => some "x") [] 400 "boom").2 "x" rfl⟩⟩

/-- C10: every response of `ServeHTTP`, on every path including the
degraded bare 400 for a body-read failure, carries the header
Content-Type: application/json, set before any branching. -/
theorem serveHTTP_always_json_content_type (users : List (String × UserInfo)) (r : Request) :
    getHeader (ServeHTTP users r).1.headers "Content-Type" = some "application/json" := by
  have hrf : ∀ status message,
      getHeader (ReturnFailure marshalErrorWrapper
        (setHeader [] "Content-Type" "application/json") status message).headers
        "Content-Type" = some "application/json" := by
    intro status message
    rw [returnFailure_real]
    simp [setHeader, getHeader]
  unfold ServeHTTP
  split
  · exact hrf _ _
  · split
    · simp [setHeader, getHeader]
    · split
      · exact hrf _ _
      · split
        · exact hrf _ _
        · split
          · exact hrf _ _
          · split
            · exact hrf _ _
            · simp [setHeader, getHeader]

end GooseIdentity
